import Mathlib

/-!
Shallow embedding of the frame-indexed animation engine of the
remotion-poc-v2 repository.  JavaScript numbers are modelled as exact
rationals (ℚ) wherever the source only uses field operations; the wheel's
trigonometric placement, which multiplies by `Math.PI` and takes
`Math.cos`/`Math.sin`, is modelled over ℝ.  Frames are modelled as
rationals (the source's `frame` is an integer, and every theorem about a
rational frame in particular holds at integer frames) except where the
source compares frames with integer arithmetic.
-/

namespace RemotionPoc

/-- Source: `gsap.parseEase("power2.out")`: GSAP's power2 ease-out is the cubic
ease-out curve `t ↦ 1 - (1 - t)³` (external gsap library; all sources in
the repository obtain their easing via `gsap.parseEase("power2.out")`). -/
def power2Out (t : ℚ) : ℚ := 1 - (1 - t) ^ 3

/-- Source: `const clamp01 = (v) => Math.max(0, Math.min(1, v))`
(src/remotion/stars-and-productivity/index.tsx line 94, also in
src/unnamed/part_000 line 172). -/
def clamp01 (v : ℚ) : ℚ := max 0 (min 1 v)

/-! ## Wheel progress (src/unnamed/part_000, `Wheel`, lines 45–53) -/

/-- Source: `const framesSinceStart = Math.max(0, frame - delay)`
(src/unnamed/part_000 line 48). -/
def framesSinceStart (frame delay : ℚ) : ℚ := max 0 (frame - delay)

/-- Source: `const rawProgress = Math.min(1, framesSinceStart / DURATION_FRAMES)`
with `DURATION_FRAMES = 100` (src/unnamed/part_000 lines 45–49). -/
def rawProgress (frame delay : ℚ) : ℚ := min 1 (framesSinceStart frame delay / 100)

/-- Source: `const progress = ease(rawProgress)` (src/unnamed/part_000 lines 52–53). -/
def wheelProgress (frame delay : ℚ) : ℚ := power2Out (rawProgress frame delay)

/-! ## Bar progress (src/remotion/productivity/Productivity.tsx, `Bar`, lines 13–19) -/

/-- Source: `const DELAY_FRAMES = 30 + props.index * 2` (Productivity.tsx line 13). -/
def barDelay (index : ℚ) : ℚ := 30 + index * 2

/-- Source: `Bar`'s eased progress: `framesSinceStart = Math.max(0, frame - DELAY_FRAMES)`;
`progress = Math.max(0, Math.min(1, framesSinceStart / 60))`;
`easedProgress = gsap.parseEase("power2.out")(progress)`
(Productivity.tsx lines 16–19). -/
def barProgress (frame index : ℚ) : ℚ :=
  power2Out (max 0 (min 1 (max 0 (frame - barDelay index) / 60)))

/-! ## Basic facts about the easing and progress functions -/

theorem power2Out_zero : power2Out 0 = 0 := by norm_num [power2Out]

theorem power2Out_one : power2Out 1 = 1 := by norm_num [power2Out]

theorem power2Out_mono {a b : ℚ} (h : a ≤ b) : power2Out a ≤ power2Out b := by
  unfold power2Out
  have h3 : (1 - b) ^ 3 ≤ (1 - a) ^ 3 := by
    nlinarith [sq_nonneg ((1 - a) + (1 - b)), sq_nonneg ((1 - a) - (1 - b)),
      sq_nonneg (1 - a), sq_nonneg (1 - b)]
  linarith

theorem power2Out_nonneg {t : ℚ} (h0 : 0 ≤ t) (h1 : t ≤ 1) : 0 ≤ power2Out t := by
  have h3 : (1 - t) ^ 3 ≤ 1 := pow_le_one₀ (by linarith) (by linarith)
  unfold power2Out; linarith

theorem power2Out_le_one {t : ℚ} (_h0 : 0 ≤ t) (h1 : t ≤ 1) : power2Out t ≤ 1 := by
  have h3 : (0 : ℚ) ≤ (1 - t) ^ 3 := pow_nonneg (by linarith) 3
  unfold power2Out; linarith

theorem clamp01_nonneg (v : ℚ) : 0 ≤ clamp01 v := le_max_left 0 _

theorem clamp01_le_one (v : ℚ) : clamp01 v ≤ 1 := by
  unfold clamp01
  rcases le_total (1 : ℚ) v with h | h <;> simp [min_def, max_def] <;> split_ifs <;> linarith

theorem clamp01_mono {a b : ℚ} (h : a ≤ b) : clamp01 a ≤ clamp01 b :=
  max_le_max le_rfl (min_le_min le_rfl h)

theorem rawProgress_nonneg (frame delay : ℚ) : 0 ≤ rawProgress frame delay := by
  unfold rawProgress framesSinceStart
  have : (0 : ℚ) ≤ max 0 (frame - delay) / 100 := by positivity
  exact le_min (by norm_num) this |>.trans (le_refl _)

theorem rawProgress_le_one (frame delay : ℚ) : rawProgress frame delay ≤ 1 :=
  min_le_left 1 _

theorem wheelProgress_nonneg (frame delay : ℚ) : 0 ≤ wheelProgress frame delay :=
  power2Out_nonneg (rawProgress_nonneg frame delay) (rawProgress_le_one frame delay)

theorem wheelProgress_le_one (frame delay : ℚ) : wheelProgress frame delay ≤ 1 :=
  power2Out_le_one (rawProgress_nonneg frame delay) (rawProgress_le_one frame delay)

/-! ## Scene orchestrator
(src/remotion/stars-and-productivity/index.tsx lines 93–107 and
src/remotion/stars-and-productivity-with-audio/index.tsx lines 191–266).
Constants: `starFlyDuration = 150`, `TABLET_ENTER_DURATION = 45`,
`TABLET_SCENE_LENGTH = 150`, `TABLET_SCENE_HIDE_ANIMATION = 45`. -/

/-- Source: `const entryRaw = (frame - starFlyDuration) / TABLET_ENTER_DURATION;
const entryProgress = ease(clamp01(entryRaw))` with `starFlyDuration = 150`
and `TABLET_ENTER_DURATION = 45`. -/
def entryProgress (frame : ℚ) : ℚ := power2Out (clamp01 ((frame - 150) / 45))

/-- Source: `const exitRaw = (frame - (starFlyDuration + TABLET_SCENE_LENGTH)) /
TABLET_SCENE_HIDE_ANIMATION; const exitProgress = ease(clamp01(exitRaw))`
with `starFlyDuration + TABLET_SCENE_LENGTH = 300` and
`TABLET_SCENE_HIDE_ANIMATION = 45`. -/
def exitProgress (frame : ℚ) : ℚ := power2Out (clamp01 ((frame - 300) / 45))

/-- Source: `const zoomTransition = entryProgress - exitProgress`
(src/remotion/stars-and-productivity/index.tsx line 107). -/
def zoomTransition (frame : ℚ) : ℚ := entryProgress frame - exitProgress frame

/-! ## Tablet opposing transforms (src/unnamed/part_000, `Tablet`, lines 190–217;
the same formulas appear in src/unnamed/part_003 lines 227–296).
All transform values are functions of the blend progress
`toFullscreenFull = entryProgress - exitProgress`. -/

/-- Source: `const toFullscreen = 0.68 * toFullscreenFull` (src/unnamed/part_000 line 191);
`p` is the blend progress `toFullscreenFull`. -/
def toFullscreen (p : ℚ) : ℚ := 68 / 100 * p

/-- Source: `const rotateYChart = (1 - toFullscreen) * SCREEN_ROTATION_Y` with
`SCREEN_ROTATION_Y = 15` (src/unnamed/part_000 line 201). -/
def rotateYChart (p : ℚ) : ℚ := (1 - toFullscreen p) * 15

/-- Source: `const rotateXChart = (1 - toFullscreen) * SCREEN_ROTATION_X` with
`SCREEN_ROTATION_X = -10` (src/unnamed/part_000 line 202). -/
def rotateXChart (p : ℚ) : ℚ := (1 - toFullscreen p) * (-10)

/-- Source: `const skewXChart = (1 - toFullscreen) * SKEW_X` with `SKEW_X = 7`
(src/unnamed/part_000 line 203). -/
def skewXChart (p : ℚ) : ℚ := (1 - toFullscreen p) * 7

/-- Source: `const skewYChart = (1 - toFullscreen) * SKEW_Y` with `SKEW_Y = -4`
(src/unnamed/part_000 line 204). -/
def skewYChart (p : ℚ) : ℚ := (1 - toFullscreen p) * (-4)

/-- Source: `const rotateYParent = -(1 - toFullscreen) * SCREEN_ROTATION_Y`
(src/unnamed/part_000 line 208). -/
def rotateYParent (p : ℚ) : ℚ := -(1 - toFullscreen p) * 15

/-- Source: `const rotateXParent = -(1 - toFullscreen) * SCREEN_ROTATION_X`
(src/unnamed/part_000 line 209). -/
def rotateXParent (p : ℚ) : ℚ := -(1 - toFullscreen p) * (-10)

/-- Source: `const skewXParent = -(1 - toFullscreen) * SKEW_X`
(src/unnamed/part_000 line 210). -/
def skewXParent (p : ℚ) : ℚ := -(1 - toFullscreen p) * 7

/-- Source: `const skewYParent = -(1 - toFullscreen) * SKEW_Y`
(src/unnamed/part_000 line 211). -/
def skewYParent (p : ℚ) : ℚ := -(1 - toFullscreen p) * (-4)

/-- Source: `const scaleChart = (1 - toFullscreen) * (0.5 * 0.8) + toFullscreen * 1`
(src/unnamed/part_000 line 214). -/
def scaleChart (p : ℚ) : ℚ :=
  (1 - toFullscreen p) * (1 / 2 * (8 / 10)) + toFullscreen p * 1

/-- Source: `const scaleParent = (1 - toFullscreen) * 1 + toFullscreen * ((1 / (1 - 0.8 * 0.5)) * 1.3)`
(src/unnamed/part_000 lines 215–216). -/
def scaleParent (p : ℚ) : ℚ :=
  (1 - toFullscreen p) * 1 + toFullscreen p * (1 / (1 - 8 / 10 * (1 / 2)) * (13 / 10))

/-- Source: `const masterScale = (1 - toFullscreen) * 0.8 + toFullscreen * 1`
(src/unnamed/part_000 line 217). -/
def masterScale (p : ℚ) : ℚ := (1 - toFullscreen p) * (8 / 10) + toFullscreen p * 1

/-! ## Interpolator -/

/-- Extrapolation policy of the interpolator, one per side. -/
inductive Extrapolate
  | clamp
  | extend
deriving DecidableEq

/-- Modelled from the spec: the Interpolator contract (the repository calls
`interpolate` from the external remotion package, whose implementation is not
under src/).  "Linear mapping: `t = (x-a)/(b-a)`; result `c + t*(d-c)`, then
clamp `t` to `[0,1]` per side if that side's policy is `clamp`." -/
def interpolate (x a b c d : ℚ) (left right : Extrapolate) : ℚ :=
  let t := (x - a) / (b - a)
  let tleft := match left with
    | .clamp => max 0 t
    | .extend => t
  let tright := match right with
    | .clamp => min 1 tleft
    | .extend => tleft
  c + tright * (d - c)

/-- Source: `const backgroundOpacity = interpolate(frame, [0, 10], [0, 1],
{extrapolateLeft: "clamp", extrapolateRight: "clamp"})`
(src/remotion/stars-given/index.tsx lines 44–47). -/
def backgroundOpacity (frame : ℚ) : ℚ :=
  interpolate frame 0 10 0 1 Extrapolate.clamp Extrapolate.clamp

/-- Source: `const fadeOutOpacity = interpolate(frame, [120, 150], [1, 0],
{extrapolateLeft: "clamp", extrapolateRight: "clamp"})`
(src/remotion/stars-given/index.tsx lines 66–69). -/
def fadeOutOpacity (frame : ℚ) : ℚ :=
  interpolate frame 120 150 1 0 Extrapolate.clamp Extrapolate.clamp

/-! ## Sequencer -/

/-- Modelled from the spec: Remotion's `Sequence` (used at
src/remotion/stars-and-productivity/index.tsx lines 149–154; its
implementation lives in the external remotion package, not under src/).
"Returns `None` when `parentFrame < window.start` or
`parentFrame >= window.start + window.duration`; otherwise returns
`parentFrame - window.start`." -/
def localFrame (parentFrame start duration : ℤ) : Option ℤ :=
  if parentFrame < start then none
  else if start + duration ≤ parentFrame then none
  else some (parentFrame - start)

/-! ## Wheel slot-to-value mapping (src/unnamed/part_000, `Wheel`, lines 86–105) -/

/-- Source: `const currentValueIndex = (index + Number(value)) % values.length`
(src/unnamed/part_000 line 89).  JavaScript's `%` on integers is the
truncated remainder, `Int.tmod`. -/
def currentValueIndex (index value totalItems : ℤ) : ℤ :=
  (index + value).tmod totalItems

/-- Source: `const isSelected = Number(value) === currentValueIndex`
(src/unnamed/part_000 line 103). -/
def isSelected (value cvi : ℤ) : Bool := value == cvi

/-- Source: `const shouldHighlight = frame - 5 > delay` (src/unnamed/part_000 line 104). -/
def shouldHighlight (frame delay : ℤ) : Bool := delay < frame - 5

/-- Source: `const textOpacity = isSelected && shouldHighlight ? 1 : 0.3`
(src/unnamed/part_000 line 105). -/
def textOpacity (value cvi : ℤ) (frame delay : ℤ) : ℚ :=
  if isSelected value cvi && shouldHighlight frame delay then 1 else 3 / 10

/-! ## Wheel rotation and circular placement (src/unnamed/part_000, `Wheel`,
lines 63–94).  These formulas multiply by `Math.PI` and apply
`Math.cos`/`Math.sin`, so they are modelled over ℝ (hence the definitions in
this section are not executable: `Real.pi`, `Real.cos` and `Int.floor` on ℝ
have no computable representation). -/

/-- JavaScript truncation toward zero of a real quotient (the integer part
used by the `%` operator on JS numbers). -/
noncomputable def jsTrunc (x : ℝ) : ℤ := if 0 ≤ x then ⌊x⌋ else ⌈x⌉

/-- JavaScript's `%` on numbers: `x % y = x - y * trunc(x / y)`
(truncated-division remainder). -/
noncomputable def jsFmod (x y : ℝ) : ℝ := x - y * jsTrunc (x / y)

/-- Source: `const rotationValue = (1 - progress) % Math.PI`
(src/unnamed/part_000 line 63). -/
noncomputable def rotationValue (progress : ℝ) : ℝ := jsFmod (1 - progress) Real.pi

/-- The simplified rotation formula without the modulus, `1 - progress`,
to be compared with `rotationValue` (refinement target: the claim is that
the `% Math.PI` in the source is a no-op). -/
def rotationValueSimplified (progress : ℝ) : ℝ := 1 - progress

/-- Source: `const normalizedIndex = index / values.length + rotationValue`
(src/unnamed/part_000 line 86). -/
noncomputable def normalizedIndex (index totalItems : ℕ) (rotation : ℝ) : ℝ :=
  (index : ℝ) / (totalItems : ℝ) + rotation

/-- Source: `const angle = normalizedIndex * -Math.PI * 2` (src/unnamed/part_000 line 92). -/
noncomputable def wheelAngle (index totalItems : ℕ) (rotation : ℝ) : ℝ :=
  normalizedIndex index totalItems rotation * (-Real.pi) * 2

/-- Source: `const zPosition = Math.cos(angle) * radius` (src/unnamed/part_000 line 93). -/
noncomputable def zPosition (angle radius : ℝ) : ℝ := Real.cos angle * radius

/-- Source: `const yPosition = Math.sin(angle) * radius` (src/unnamed/part_000 line 94). -/
noncomputable def yPosition (angle radius : ℝ) : ℝ := Real.sin angle * radius

/-! ## Bundled engine evaluation (for the purity/determinism property).
One tuple collecting the engine's scalar outputs at a frame: the zoom
transition, the stars-scene opacities, a wheel slot's progress and text
opacity, and the tablet's opposing-transform values at that frame's blend
progress.  Everything is a plain function of `(frame, config)`. -/

/-- Source: `frame < timeUntilTabletIsEntered || frame > timeUntilTabletHides`
with `timeUntilTabletIsEntered = 196` and `timeUntilTabletHides = 300`
(src/remotion/stars-and-productivity/index.tsx lines 139–146): whether the
`StarsGiven` sub-scene is rendered at all. -/
def starsVisible (frame : ℤ) : Bool := frame < 196 || 300 < frame

/-- One joint evaluation of the engine's scalar outputs at an (integer)
frame, for a wheel slot configuration `(value, slotIndex, totalItems, delay)`. -/
def engineEval (frame : ℤ) (value slotIndex totalItems delay : ℤ) :
    ℚ × ℚ × ℚ × ℚ × ℚ × ℚ × ℚ × Bool :=
  (zoomTransition frame,
   backgroundOpacity frame,
   fadeOutOpacity frame,
   wheelProgress frame delay,
   textOpacity value (currentValueIndex slotIndex value totalItems) frame delay,
   rotateYChart (zoomTransition frame),
   rotateYParent (zoomTransition frame),
   starsVisible frame)

/-! ## Helper lemmas for the orchestrator transition -/

theorem entryProgress_eq_zero {f : ℚ} (h : f ≤ 150) : entryProgress f = 0 := by
  unfold entryProgress
  have h1 : (f - 150) / 45 ≤ 0 := by linarith
  have h2 : clamp01 ((f - 150) / 45) = 0 := by
    unfold clamp01
    rw [min_eq_right (h1.trans (by norm_num))]
    exact max_eq_left h1
  rw [h2, power2Out_zero]

theorem entryProgress_eq_one {f : ℚ} (h : 195 ≤ f) : entryProgress f = 1 := by
  unfold entryProgress
  have h1 : (1 : ℚ) ≤ (f - 150) / 45 := by linarith
  have h2 : clamp01 ((f - 150) / 45) = 1 := by
    unfold clamp01
    rw [min_eq_left h1]
    exact max_eq_right (by norm_num)
  rw [h2, power2Out_one]

theorem exitProgress_eq_zero {f : ℚ} (h : f ≤ 300) : exitProgress f = 0 := by
  unfold exitProgress
  have h1 : (f - 300) / 45 ≤ 0 := by linarith
  have h2 : clamp01 ((f - 300) / 45) = 0 := by
    unfold clamp01
    rw [min_eq_right (h1.trans (by norm_num))]
    exact max_eq_left h1
  rw [h2, power2Out_zero]

theorem exitProgress_eq_one {f : ℚ} (h : 345 ≤ f) : exitProgress f = 1 := by
  unfold exitProgress
  have h1 : (1 : ℚ) ≤ (f - 300) / 45 := by linarith
  have h2 : clamp01 ((f - 300) / 45) = 1 := by
    unfold clamp01
    rw [min_eq_left h1]
    exact max_eq_right (by norm_num)
  rw [h2, power2Out_one]

theorem entryProgress_mono {f1 f2 : ℚ} (h : f1 ≤ f2) :
    entryProgress f1 ≤ entryProgress f2 :=
  power2Out_mono (clamp01_mono (by linarith))

theorem exitProgress_mono {f1 f2 : ℚ} (h : f1 ≤ f2) :
    exitProgress f1 ≤ exitProgress f2 :=
  power2Out_mono (clamp01_mono (by linarith))

/-! ## Claim theorems -/

/-- C1: every engine function is deterministic and pure — the bundled
engine evaluation (zoom transition, scene opacities, wheel slot state,
tablet opposing-transform values, scene visibility) is a plain function of
the frame and the static configuration, so evaluating it twice with
identical arguments yields identical outputs, and any two frames can be
evaluated independently and in either order with the same results. -/
theorem C1_engine_determinism :
    (∀ frame value slotIndex totalItems delay : ℤ,
      engineEval frame value slotIndex totalItems delay =
        engineEval frame value slotIndex totalItems delay) ∧
    (∀ f1 f2 value slotIndex totalItems delay : ℤ,
      (engineEval f1 value slotIndex totalItems delay,
        engineEval f2 value slotIndex totalItems delay) =
      Prod.swap (engineEval f2 value slotIndex totalItems delay,
        engineEval f1 value slotIndex totalItems delay)) :=
  ⟨fun _ _ _ _ _ => rfl, fun _ _ _ _ _ _ => rfl⟩

/-- C2: for every parent frame and window with positive duration,
`localFrame` is `none` exactly when the parent frame is left of `start` or
at/after `start + duration`, and otherwise returns `parentFrame - start`,
which lies in `[0, duration)`; concretely, for the window
`{start := 30, duration := 16}`: `localFrame 30 = some 0`,
`localFrame 45 = some 15`, `localFrame 29 = none`, `localFrame 46 = none`. -/
theorem C2_sequencer_localFrame :
    (∀ parentFrame start duration : ℤ, 0 < duration →
      ((localFrame parentFrame start duration = none ↔
        parentFrame < start ∨ start + duration ≤ parentFrame) ∧
       ∀ r, localFrame parentFrame start duration = some r →
        r = parentFrame - start ∧ 0 ≤ r ∧ r < duration)) ∧
    localFrame 30 30 16 = some 0 ∧
    localFrame 45 30 16 = some 15 ∧
    localFrame 29 30 16 = none ∧
    localFrame 46 30 16 = none := by
  refine ⟨?_, by decide, by decide, by decide, by decide⟩
  intro pf s d _hd
  unfold localFrame
  split_ifs with h1 h2
  · exact ⟨by simp; omega, fun r hr => by cases hr⟩
  · exact ⟨by simp; omega, fun r hr => by cases hr⟩
  · refine ⟨by simp; omega, fun r hr => ?_⟩
    have : pf - s = r := by injection hr
    omega

/-- C2 witness: the general window characterisation applied at the
concrete window `{start := 30, duration := 16}` and parent frame 37. -/
theorem C2_sequencer_localFrame_witness :
    localFrame 37 30 16 = none ↔ (37 : ℤ) < 30 ∨ (30 : ℤ) + 16 ≤ 37 :=
  (C2_sequencer_localFrame.1 37 30 16 (by norm_num)).1

/-- C3: the orchestrator's transition value is the difference of the entry
and exit progress functions, takes the exact values 0, 1, 1, 0 at frames
150, 195, 300, 345, is non-decreasing across the entry window [150, 195],
holds at exactly 1 on [195, 300], and is non-increasing across the exit
window [300, 345]. -/
theorem C3_transition_shape :
    (∀ f : ℚ, zoomTransition f = entryProgress f - exitProgress f) ∧
    zoomTransition 150 = 0 ∧
    zoomTransition 195 = 1 ∧
    zoomTransition 300 = 1 ∧
    zoomTransition 345 = 0 ∧
    (∀ f1 f2 : ℚ, 150 ≤ f1 → f1 ≤ f2 → f2 ≤ 195 →
      zoomTransition f1 ≤ zoomTransition f2) ∧
    (∀ f : ℚ, 195 ≤ f → f ≤ 300 → zoomTransition f = 1) ∧
    (∀ f1 f2 : ℚ, 300 ≤ f1 → f1 ≤ f2 → f2 ≤ 345 →
      zoomTransition f2 ≤ zoomTransition f1) := by
  refine ⟨fun _ => rfl, ?_, ?_, ?_, ?_, ?_, ?_, ?_⟩
  · unfold zoomTransition
    rw [entryProgress_eq_zero (by norm_num), exitProgress_eq_zero (by norm_num)]
    norm_num
  · unfold zoomTransition
    rw [entryProgress_eq_one (by norm_num), exitProgress_eq_zero (by norm_num)]
    norm_num
  · unfold zoomTransition
    rw [entryProgress_eq_one (by norm_num), exitProgress_eq_zero (by norm_num)]
    norm_num
  · unfold zoomTransition
    rw [entryProgress_eq_one (by norm_num), exitProgress_eq_one (by norm_num)]
    norm_num
  · intro f1 f2 _h1 h12 h2
    unfold zoomTransition
    rw [exitProgress_eq_zero (by linarith), exitProgress_eq_zero (by linarith)]
    have := entryProgress_mono h12
    linarith
  · intro f h1 h2
    unfold zoomTransition
    rw [entryProgress_eq_one (by linarith), exitProgress_eq_zero (by linarith)]
    norm_num
  · intro f1 f2 h1 h12 _h2
    unfold zoomTransition
    rw [entryProgress_eq_one (by linarith), entryProgress_eq_one (by linarith)]
    have := exitProgress_mono h12
    linarith

/-- C3 witness: the hold segment applied at the concrete frame 240. -/
theorem C3_transition_shape_witness : zoomTransition 240 = 1 :=
  C3_transition_shape.2.2.2.2.2.2.1 240 (by norm_num) (by norm_num)

/-- C4: with the clamp policy on both sides the interpolator computes
`c + t·(d−c)` with `t = (x−a)/(b−a)` clamped to `[0, 1]`, and on the range
`[0,10] → [0,1]` it maps −5 to 0, 15 to 1 and 5 to 1/2. -/
theorem C4_interpolate_clamp :
    (∀ x a b c d : ℚ, interpolate x a b c d Extrapolate.clamp Extrapolate.clamp =
      c + max 0 (min 1 ((x - a) / (b - a))) * (d - c)) ∧
    interpolate (-5) 0 10 0 1 Extrapolate.clamp Extrapolate.clamp = 0 ∧
    interpolate 15 0 10 0 1 Extrapolate.clamp Extrapolate.clamp = 1 ∧
    interpolate 5 0 10 0 1 Extrapolate.clamp Extrapolate.clamp = 1 / 2 := by
  have key : ∀ x a b c d : ℚ,
      interpolate x a b c d Extrapolate.clamp Extrapolate.clamp =
        c + max 0 (min 1 ((x - a) / (b - a))) * (d - c) := by
    intro x a b c d
    unfold interpolate
    have comm : min 1 (max 0 ((x - a) / (b - a))) =
        max 0 (min 1 ((x - a) / (b - a))) := by
      rw [max_min_distrib_left]
      norm_num
    simp only
    rw [comm]
  refine ⟨key, ?_, ?_, ?_⟩
  · rw [key]; norm_num
  · rw [key]
    rw [show ((15 : ℚ) - 0) / (10 - 0) = 3 / 2 by norm_num]
    rw [min_eq_left (by norm_num), max_eq_right (by norm_num)]
    norm_num
  · rw [key]; norm_num

/-- C5: the spring-like progress functions (the wheel's 100-frame progress
and the bar's 60-frame progress) are exactly 0 for every frame strictly
below their configured delay, are monotonically non-decreasing in the
frame, and are within 0.01 of 1 once the configured duration has elapsed
after the delay (they are exactly 1 there). -/
theorem C5_spring_progress :
    (∀ f d : ℚ, f < d → wheelProgress f d = 0) ∧
    (∀ d f1 f2 : ℚ, f1 ≤ f2 → wheelProgress f1 d ≤ wheelProgress f2 d) ∧
    (∀ f d : ℚ, d + 100 ≤ f → |wheelProgress f d - 1| ≤ 1 / 100) ∧
    (∀ f i : ℚ, f < barDelay i → barProgress f i = 0) ∧
    (∀ i f1 f2 : ℚ, f1 ≤ f2 → barProgress f1 i ≤ barProgress f2 i) ∧
    (∀ f i : ℚ, barDelay i + 60 ≤ f → |barProgress f i - 1| ≤ 1 / 100) := by
  refine ⟨?_, ?_, ?_, ?_, ?_, ?_⟩
  · intro f d h
    have h1 : framesSinceStart f d = 0 := max_eq_left (by linarith)
    unfold wheelProgress rawProgress
    rw [h1]
    norm_num [power2Out]
  · intro d f1 f2 h
    apply power2Out_mono
    unfold rawProgress framesSinceStart
    have hm : max 0 (f1 - d) ≤ max 0 (f2 - d) := max_le_max le_rfl (by linarith)
    exact min_le_min le_rfl (by linarith)
  · intro f d h
    have h1 : framesSinceStart f d = f - d := max_eq_right (by linarith)
    have h2 : rawProgress f d = 1 := by
      unfold rawProgress
      rw [h1]
      exact min_eq_left (by linarith)
    unfold wheelProgress
    rw [h2, power2Out_one]
    norm_num
  · intro f i h
    unfold barProgress
    have h1 : max 0 (f - barDelay i) = 0 := max_eq_left (by linarith)
    rw [h1]
    norm_num [power2Out]
  · intro i f1 f2 h
    apply power2Out_mono
    have hm : max 0 (f1 - barDelay i) ≤ max 0 (f2 - barDelay i) :=
      max_le_max le_rfl (by linarith)
    exact max_le_max le_rfl (min_le_min le_rfl (by linarith))
  · intro f i h
    unfold barProgress
    have h1 : max 0 (f - barDelay i) = f - barDelay i := max_eq_right (by linarith)
    rw [h1]
    have h2 : min 1 ((f - barDelay i) / 60) = 1 := min_eq_left (by linarith)
    rw [h2]
    have h3 : max (0 : ℚ) 1 = 1 := max_eq_right (by norm_num)
    rw [h3, power2Out_one]
    norm_num

/-- C5 witness: the three wheel clauses applied at concrete inputs —
progress is 0 at frame 10 with delay 30, monotone between frames 40 and 50,
and within 0.01 of 1 at frame 200 with delay 30. -/
theorem C5_spring_progress_witness :
    wheelProgress 10 30 = 0 ∧
    wheelProgress 40 30 ≤ wheelProgress 50 30 ∧
    |wheelProgress 200 30 - 1| ≤ 1 / 100 :=
  ⟨C5_spring_progress.1 10 30 (by norm_num),
   C5_spring_progress.2.1 30 40 50 (by norm_num),
   C5_spring_progress.2.2.1 200 30 (by norm_num)⟩

/-- Helper: truncated remainder of a nonnegatively-bounded negative
numerator is the numerator itself. -/
theorem tmod_of_neg_gt {m n : ℤ} (h0 : 0 ≤ m) (h1 : m < n) : (-m).tmod n = -m := by
  rw [Int.tmod_def, Int.neg_tdiv, Int.tdiv_eq_zero_of_lt h0 h1]
  ring

/-- C6: the wheel displays the value at slot index
`(index + selectedValue) mod totalItems` (a value always in
`[0, totalItems)` for valid inputs); for `totalItems = 7` and
`selectedValue = 3` the slot at index 6 displays value 2; and once the
animation has settled (`frame - 5 > delay`), exactly one slot index in
`[0, totalItems)` satisfies `isSelected = true`. -/
theorem C6_wheel_wraparound :
    (∀ index value totalItems : ℤ, 0 ≤ index → 0 ≤ value → 0 < totalItems →
      currentValueIndex index value totalItems = (index + value) % totalItems ∧
      0 ≤ currentValueIndex index value totalItems ∧
      currentValueIndex index value totalItems < totalItems) ∧
    currentValueIndex 6 3 7 = 2 ∧
    (∀ value totalItems : ℤ, 0 ≤ value → value < totalItems →
      ∀ frame delay : ℤ, shouldHighlight frame delay = true →
        ∃! index : ℤ, 0 ≤ index ∧ index < totalItems ∧
          isSelected value (currentValueIndex index value totalItems) = true) := by
  refine ⟨?_, by decide, ?_⟩
  · intro i v n hi hv hn
    have he : currentValueIndex i v n = (i + v) % n := by
      unfold currentValueIndex
      exact Int.tmod_eq_emod (by omega) (by omega)
    refine ⟨he, ?_, ?_⟩
    · rw [he]; exact Int.emod_nonneg _ (by omega)
    · rw [he]; exact Int.emod_lt_of_pos _ hn
  · intro v n hv hvn frame delay _hsettled
    have hn : 0 < n := lt_of_le_of_lt hv hvn
    have hsel : ∀ i : ℤ, isSelected v (currentValueIndex i v n) = true ↔
        (i + v).tmod n = v := by
      intro i
      unfold isSelected currentValueIndex
      rw [beq_iff_eq]
      exact eq_comm
    refine ⟨0, ⟨le_refl 0, hn, ?_⟩, ?_⟩
    · rw [hsel]
      rw [zero_add, Int.tmod_eq_emod hv (by omega)]
      exact Int.emod_eq_of_lt hv hvn
    · rintro i ⟨hi0, hin, hisel⟩
      rw [hsel] at hisel
      rw [Int.tmod_eq_emod (by omega) (by omega)] at hisel
      rcases lt_or_le (i + v) n with hlt | hge
      · have := Int.emod_eq_of_lt (by omega) hlt
        omega
      · have h0' : 0 ≤ i + v - n := by omega
        have h2' : i + v - n < n := by omega
        have heq : (i + v) % n = i + v - n := by
          have hs : (i + v - n) % n = (i + v) % n := Int.emod_sub_cancel (i + v) n
          rw [← hs]
          exact Int.emod_eq_of_lt h0' h2'
        omega

/-- C6 witness: the wraparound characterisation applied at index 0, value
3, 7 items, and the settled-uniqueness clause applied at value 3, 7 items,
frame 100, delay 60. -/
theorem C6_wheel_wraparound_witness :
    currentValueIndex 0 3 7 = (0 + 3) % 7 ∧
    (∃! index : ℤ, 0 ≤ index ∧ index < 7 ∧
      isSelected 3 (currentValueIndex index 3 7) = true) :=
  ⟨(C6_wheel_wraparound.1 0 3 7 (by norm_num) (by norm_num) (by norm_num)).1,
   C6_wheel_wraparound.2.2 3 7 (by norm_num) (by norm_num) 100 60 (by decide)⟩

/-- C7: end-to-end settled wheel geometry — with the rotation fully
settled (`progress = 1`, so the rotation offset `(1 - 1) % π` is 0), the
7-item wheel's slot at index 4 has angle `(4/7)·(−2π)`, sits at
`depthZ = cos(angle)·130` and `verticalY = sin(angle)·130`, displays value
`(4 + 3) mod 7 = 0`, and is not selected since `3 ≠ 0`. -/
theorem C7_settled_wheel_item :
    rotationValue 1 = 0 ∧
    wheelAngle 4 7 (rotationValue 1) = (4 / 7 : ℝ) * (-(2 * Real.pi)) ∧
    zPosition (wheelAngle 4 7 (rotationValue 1)) 130 =
      Real.cos ((4 / 7 : ℝ) * (-(2 * Real.pi))) * 130 ∧
    yPosition (wheelAngle 4 7 (rotationValue 1)) 130 =
      Real.sin ((4 / 7 : ℝ) * (-(2 * Real.pi))) * 130 ∧
    currentValueIndex 4 3 7 = 0 ∧
    isSelected 3 (currentValueIndex 4 3 7) = false := by
  have h0 : rotationValue 1 = 0 := by
    unfold rotationValue jsFmod jsTrunc
    norm_num
  have hang : wheelAngle 4 7 (rotationValue 1) = (4 / 7 : ℝ) * (-(2 * Real.pi)) := by
    rw [h0]
    unfold wheelAngle normalizedIndex
    push_cast
    ring
  refine ⟨h0, hang, ?_, ?_, by decide, by decide⟩
  · unfold zPosition; rw [hang]
  · unfold yPosition; rw [hang]

/-- C8 counterexample: the claim says the frame's rotation goes 0 → −θmax
as the blend progress goes 0 → 1, but at blend progress 0 the code already
gives the frame its full counter-rotation −θmax = −15 (and the magnitude
then shrinks as the progress rises), so the frame's rotation at progress 0
is not 0. -/
theorem C8_opposing_transform_counterexample :
    rotateYParent 0 = -15 ∧ rotateYParent 0 ≠ 0 := by
  constructor
  · norm_num [rotateYParent, toFullscreen]
  · norm_num [rotateYParent, toFullscreen]

/-- C8 amended: the frame and the content receive rotation/skew values of
opposite sign at every blend progress (`frame value = −(content value)`,
for rotateY, rotateX, skewX and skewY); as the blend progress goes 0 → 1
the content's rotateY goes θmax = 15 down to 0.32·θmax = 24/5 while the
frame's goes −θmax up to −24/5 (the code scales the progress by 0.68, and
the frame starts — not ends — at −θmax); at progress 0 the layers are at
their rest sizes (content scale 0.4, frame scale 1, master scale 0.8), and
the frame's fullscreen scale coefficient is the reciprocal of one minus
the content's rest shrink factor, times the padding constant 1.3. -/
theorem C8_opposing_transform :
    (∀ p : ℚ, rotateYParent p = -(rotateYChart p) ∧
      rotateXParent p = -(rotateXChart p) ∧
      skewXParent p = -(skewXChart p) ∧
      skewYParent p = -(skewYChart p)) ∧
    rotateYChart 0 = 15 ∧ rotateYParent 0 = -15 ∧
    rotateYChart 1 = 24 / 5 ∧ rotateYParent 1 = -(24 / 5) ∧
    scaleChart 0 = 2 / 5 ∧ scaleParent 0 = 1 ∧ masterScale 0 = 4 / 5 ∧
    (∀ p : ℚ, scaleParent p =
      (1 - toFullscreen p) + toFullscreen p * (1 / (1 - scaleChart 0) * (13 / 10))) := by
  refine ⟨?_, ?_, ?_, ?_, ?_, ?_, ?_, ?_, ?_⟩
  · intro p
    refine ⟨?_, ?_, ?_, ?_⟩
    · simp only [rotateYParent, rotateYChart]; ring
    · simp only [rotateXParent, rotateXChart]; ring
    · simp only [skewXParent, skewXChart]; ring
    · simp only [skewYParent, skewYChart]; ring
  · norm_num [rotateYChart, toFullscreen]
  · norm_num [rotateYParent, toFullscreen]
  · norm_num [rotateYChart, toFullscreen]
  · norm_num [rotateYParent, toFullscreen]
  · norm_num [scaleChart, toFullscreen]
  · norm_num [scaleParent, toFullscreen]
  · norm_num [masterScale, toFullscreen]
  · intro p
    norm_num [scaleParent, scaleChart, toFullscreen]

/-- C9 counterexample: a negative `selectedValue` is not detected or
rejected anywhere — the per-frame wheel computation happily evaluates with
`selectedValue = -1` and produces the out-of-range display index −1
(JavaScript's truncated `%` keeps the sign of the dividend), so the error
surfaces mid-computation rather than at configuration assembly. -/
theorem C9_no_validation_counterexample :
    currentValueIndex 0 (-1) 7 = -1 ∧ ¬(0 ≤ currentValueIndex 0 (-1) 7) := by
  decide

/-- C9 amended: the code performs no eager configuration validation —
invalid configurations flow into the per-frame computation unflagged: for
any negative `selectedValue` of magnitude below `totalItems`, the wheel's
display-index computation still evaluates and returns the negative value
itself (an index outside `[0, totalItems)`), and the frame-time highlight
logic even marks that out-of-range slot as selected (full text opacity)
once past the delay, instead of the configuration ever being rejected. -/
theorem C9_no_validation :
    (∀ value totalItems : ℤ, -totalItems < value → value < 0 →
      currentValueIndex 0 value totalItems = value) ∧
    textOpacity (-1) (currentValueIndex 0 (-1) 7) 100 60 = 1 := by
  constructor
  · intro v n h1 h2
    unfold currentValueIndex
    rw [zero_add]
    have : v = -(-v) := by ring
    rw [this]
    exact tmod_of_neg_gt (by omega) (by omega)
  · have hcvi : currentValueIndex 0 (-1) 7 = -1 := by decide
    rw [hcvi]
    norm_num [textOpacity, isSelected, shouldHighlight]

/-- C9 witness: the amended statement applied at `selectedValue = -1`,
`totalItems = 7`. -/
theorem C9_no_validation_witness : currentValueIndex 0 (-1) 7 = -1 :=
  C9_no_validation.1 (-1) 7 (by norm_num) (by norm_num)

/-- C10: the half-circle modulus in the wheel's rotation formula is a
no-op — for every frame and delay, the eased progress lies in `[0, 1]`, so
`(1 - progress) % π` equals `1 - progress` (the definition with the
modulus coincides with the simplified definition without it), and the
rotation offset never exceeds 1. -/
theorem C10_rotation_modulus_noop :
    ∀ frame delay : ℚ,
      rotationValue ((wheelProgress frame delay : ℚ) : ℝ) =
        rotationValueSimplified ((wheelProgress frame delay : ℚ) : ℝ) ∧
      rotationValue ((wheelProgress frame delay : ℚ) : ℝ) ≤ 1 := by
  intro f d
  have hp0 : (0 : ℝ) ≤ ((wheelProgress f d : ℚ) : ℝ) := by
    exact_mod_cast wheelProgress_nonneg f d
  have hp1 : ((wheelProgress f d : ℚ) : ℝ) ≤ 1 := by
    exact_mod_cast wheelProgress_le_one f d
  set p : ℝ := ((wheelProgress f d : ℚ) : ℝ) with hpdef
  have hx0 : (0 : ℝ) ≤ 1 - p := by linarith
  have hxpi : 1 - p < Real.pi := by
    have h3 := Real.pi_gt_three
    linarith
  have hq0 : (0 : ℝ) ≤ (1 - p) / Real.pi := div_nonneg hx0 Real.pi_pos.le
  have hq1 : (1 - p) / Real.pi < 1 := (div_lt_one Real.pi_pos).mpr hxpi
  have htr : jsTrunc ((1 - p) / Real.pi) = 0 := by
    unfold jsTrunc
    rw [if_pos hq0]
    exact Int.floor_eq_zero_iff.mpr (Set.mem_Ico.mpr ⟨hq0, hq1⟩)
  have heq : rotationValue p = 1 - p := by
    unfold rotationValue jsFmod
    rw [htr]
    push_cast
    ring
  exact ⟨by rw [heq]; rfl, by rw [heq]; linarith⟩

end RemotionPoc
